import Mathlib

/-!
Shallow embedding of the bounded sequential tool-orchestration loop of
`backend/ai_generator.py` (class `AIGenerator`), together with spec-modelled
versions of the search tool and tool registry whose source files are not part
of the provided sources (only their tests are).

Modelling conventions:
- The Anthropic client is modelled by a flag `hasClient` plus an oracle
  `ModelApi : Nat -> Except String ModelResponse` giving, for each successive
  `messages.create` call (numbered from 0), either the response the
  collaborator returns or the exception it raises (`Except.error msg`).
- A tool manager is a function `ToolManager` returning `Except.ok result`
  for a normal textual result and `Except.error msg` for a raised exception
  with message `msg`.
- Python `None` / attribute absence is `Option.none`; Python truthiness of an
  optional string or list is made explicit (`strTruthy`, `listTruthy`).
- `response.content[0].text` is modelled by `firstText`: an `IndexError` on an
  empty content list is an exception (`Except.error`), and the `.text`
  attribute of a block is an `Option String` (a tool-use block carries none).
- The outcome of `generate_response` records both the returned value
  (`Except.error e` = an uncaught exception propagated to the caller,
  `Except.ok t` = a normal return of the optional text `t`) and the ordered
  list of parameter records of every `messages.create` call issued.
-/

set_option maxHeartbeats 1000000

set_option maxRecDepth 8000

set_option autoImplicit false

abbrev ToolDef := String

abbrev ToolArgs := List (String × String)

/-- Modelled after the anthropic SDK content block as the code reads it:
fields `type`, `text`, `name`, `input`, `id` (cf. the mock in
`tests/test_ai_generator.py`). `text` is `none` when the block carries no text
payload (a tool-use block). -/
structure ContentBlock where
  type : String
  text : Option String
  name : String
  input : ToolArgs
  id : String
deriving DecidableEq, Repr

/-- A model response: `stop_reason` and the list of content blocks. -/
structure ModelResponse where
  stop_reason : String
  content : List ContentBlock
deriving DecidableEq, Repr

/-- One `tool_result` entry of the combined user message built by
`_handle_tool_execution` (lines 149-161 of ai_generator.py). -/
structure ToolResult where
  type : String
  tool_use_id : String
  content : String
deriving DecidableEq, Repr

/-- Content of a chat message: the plain query string, the assistant content
blocks echoed back, or a list of tool results. -/
inductive MessageContent where
  | ofQuery (s : String)
  | blocks (bs : List ContentBlock)
  | results (rs : List ToolResult)
deriving DecidableEq, Repr

structure ChatMessage where
  role : String
  content : MessageContent
deriving DecidableEq, Repr

/-- The keyword arguments of one `client.messages.create(**params)` call.
`tools = none` means the `tools` key is absent or `None`; `tool_choice = some
"auto"` models `tool_choice = {"type": "auto"}`. -/
structure ApiParams where
  model : String
  temperature : Nat
  max_tokens : Nat
  messages : List ChatMessage
  system : String
  tools : Option (List ToolDef)
  tool_choice : Option String
deriving DecidableEq, Repr

/-- `tool_manager.execute_tool(name, **input)`: `Except.ok` a textual result,
`Except.error msg` a raised exception with message `msg`. -/
abbrev ToolManager := String → ToolArgs → Except String String

/-- The model collaborator: the outcome of the n-th `messages.create` call. -/
abbrev ModelApi := Nat → Except String ModelResponse

structure AIGenerator where
  model : String
  hasClient : Bool
deriving DecidableEq, Repr

instance {ε α : Type} [DecidableEq ε] [DecidableEq α] : DecidableEq (Except ε α) := fun x y =>
  match x, y with
  | Except.ok a, Except.ok b =>
    if h : a = b then Decidable.isTrue (by rw [h])
    else Decidable.isFalse (fun hc => h (Except.ok.inj hc))
  | Except.error a, Except.error b =>
    if h : a = b then Decidable.isTrue (by rw [h])
    else Decidable.isFalse (fun hc => h (Except.error.inj hc))
  | Except.ok _, Except.error _ => Decidable.isFalse (fun hc => Except.noConfusion hc)
  | Except.error _, Except.ok _ => Decidable.isFalse (fun hc => Except.noConfusion hc)

/-- Result of `generate_response`: the returned value (or propagated
exception) plus the list of all issued `messages.create` parameter records. -/
structure Outcome where
  result : Except String (Option String)
  calls : List ApiParams
deriving DecidableEq, Repr

/-- Python truthiness of an optional string (`None` and `""` are falsy). -/
def strTruthy : Option String → Bool
  | none => false
  | some s => !(s = "")

/-- Python truthiness of an optional list (`None` and `[]` are falsy). -/
def listTruthy {α : Type} : Option (List α) → Bool
  | none => false
  | some l => !l.isEmpty

/-- The static system prompt (ai_generator.py lines 8-36). -/
def AIGenerator.SYSTEM_PROMPT : String :=
  " You are an AI assistant specialized in course materials and educational content with access to a comprehensive search tool for course information.\n\nSearch Tool Usage:\n- Use the search tool **only** for questions about specific course content or detailed educational materials\n- **Up to 2 sequential searches allowed per query** - you can reason about previous search results and perform additional searches if needed\n- For complex queries requiring multiple searches (e.g., comparisons, multi-part questions, cross-course information), perform sequential searches\n- Synthesize all search results into accurate, fact-based responses\n- If search yields no results, state this clearly without offering alternatives\n\nSequential Search Examples:\n- \"Find lesson 4 content from course X, then search for other courses covering the same topic\"\n- \"Compare approaches between different courses on the same subject\"\n- Multi-part questions requiring information from different lessons or courses\n\nResponse Protocol:\n- **General knowledge questions**: Answer using existing knowledge without searching\n- **Course-specific questions**: Search first, then answer\n- **Complex queries**: Use up to 2 searches to gather comprehensive information\n- **No meta-commentary**:\n - Provide direct answers only - no reasoning process, search explanations, or question-type analysis\n - Do not mention \"based on the search results\"\n\nAll responses must be:\n1. **Brief, Concise and focused** - Get to the point quickly\n2. **Educational** - Maintain instructional value\n3. **Clear** - Use accessible language\n4. **Example-supported** - Include relevant examples when they aid understanding\nProvide only the direct answer to what was asked.\n"

/-- The fixed configuration-error text returned when no client is configured
(ai_generator.py line 77). -/
def apiKeyErrorMsg : String :=
  "I\x27m sorry, but I need a valid Anthropic API key to generate responses. Please set a valid ANTHROPIC_API_KEY in your .env file."

/-- The fallback text returned when the recovery model call after a failed
tool round itself raises (ai_generator.py line 183). -/
def toolFailureFallback : String :=
  "I encountered an issue while searching for information. Please try rephrasing your question."

/-- System content: the prompt, extended with the conversation history when
that string is truthy (ai_generator.py lines 80-84). -/
def systemContent (history : Option String) : String :=
  if strTruthy history then
    AIGenerator.SYSTEM_PROMPT ++ "\n\nPrevious conversation:\n" ++ history.getD ""
  else
    AIGenerator.SYSTEM_PROMPT

/-- Parameters of the first `messages.create` call (ai_generator.py lines
86-96): the base params, the sole user message, the system content, and the
tools plus automatic tool choice exactly when `tools` is truthy. -/
def AIGenerator.initialParams (g : AIGenerator) (query : String)
    (history : Option String) (tools : Option (List ToolDef)) : ApiParams :=
  { model := g.model
    temperature := 0
    max_tokens := 800
    messages := [{ role := "user", content := MessageContent.ofQuery query }]
    system := systemContent history
    tools := if listTruthy tools then tools else none
    tool_choice := if listTruthy tools then some "auto" else none }

/-- Parameters of every follow-up `messages.create` call inside
`_handle_tool_execution`: the three parameter dicts built at lines 170-176,
188-194 and 200-206 are identical - base params, accumulated messages, the
base system content, `tools = base_params.get("tools")` and an automatic tool
choice. -/
def AIGenerator.followupParams (g : AIGenerator) (system : String)
    (tools : Option (List ToolDef)) (messages : List ChatMessage) : ApiParams :=
  { model := g.model
    temperature := 0
    max_tokens := 800
    messages := messages
    system := system
    tools := tools
    tool_choice := some "auto" }

/-- `response.content[0].text`: an `IndexError` propagates on an empty content
list, otherwise the optional text of the first block is returned. -/
def firstText (r : ModelResponse) : Except String (Option String) :=
  match r.content with
  | [] => Except.error "IndexError: list index out of range"
  | b :: _ => Except.ok b.text

/-- The per-round tool execution loop (ai_generator.py lines 137-161): for
every `tool_use` content block, in order, run the tool through the manager; a
raised exception is replaced by the textual result
`"Tool execution failed: <message>"` and flips the failure flag. Returns the
tool result list and the failure flag. -/
def runToolBlocks (tm : ToolManager) : List ContentBlock → List ToolResult × Bool
  | [] => ([], false)
  | b :: bs =>
    let rest := runToolBlocks tm bs
    if b.type = "tool_use" then
      match tm b.name b.input with
      | Except.ok r =>
          ({ type := "tool_result", tool_use_id := b.id, content := r } :: rest.1, rest.2)
      | Except.error e =>
          ({ type := "tool_result", tool_use_id := b.id,
             content := "Tool execution failed: " ++ e } :: rest.1, true)
    else rest

/-- Maximum sequential tool rounds (ai_generator.py line 121). -/
def MAX_ROUNDS : Nat := 2

/-- The sequential tool execution loop of `_handle_tool_execution`
(ai_generator.py lines 128-212), with the remaining round count as the
recursion measure (`remaining = MAX_ROUNDS - round_num`) and the list of
already-issued call parameter records threaded through (`api trace.length` is
the next `messages.create` call).

Branches, in source order: a non-`tool_use` stop reason returns the current
text (line 130-132); otherwise the assistant message and the combined tool
result message are appended (lines 135, 163-165); a failed round issues one
recovery call whose own exception (including the IndexError of an empty
content list, since line 180 sits inside the `try`) is caught and replaced by
the fixed fallback text (lines 167-183); the last round issues one final call
whose failure propagates (lines 185-197); otherwise the call of the next round is
issued and the loop continues (lines 199-209); exhausting the rounds returns
the current text (line 212, dead code when started at `MAX_ROUNDS`). -/
def toolRounds (g : AIGenerator) (api : ModelApi) (tm : ToolManager)
    (system : String) (tools : Option (List ToolDef)) :
    List ChatMessage → ModelResponse → Nat → List ApiParams → Outcome
  | _msgs, cur, 0, trace => { result := firstText cur, calls := trace }
  | msgs, cur, Nat.succ n, trace =>
    if cur.stop_reason ≠ "tool_use" then
      { result := firstText cur, calls := trace }
    else
      let msgs1 := msgs ++ [{ role := "assistant", content := MessageContent.blocks cur.content }]
      let tr := runToolBlocks tm cur.content
      let msgs2 := if tr.1.isEmpty then msgs1
        else msgs1 ++ [{ role := "user", content := MessageContent.results tr.1 }]
      let p := AIGenerator.followupParams g system tools msgs2
      if tr.2 then
        match api trace.length with
        | Except.ok r =>
          match r.content with
          | [] => { result := Except.ok (some toolFailureFallback), calls := trace ++ [p] }
          | b :: _ => { result := Except.ok b.text, calls := trace ++ [p] }
        | Except.error _ =>
          { result := Except.ok (some toolFailureFallback), calls := trace ++ [p] }
      else if n = 0 then
        match api trace.length with
        | Except.ok r => { result := firstText r, calls := trace ++ [p] }
        | Except.error e => { result := Except.error e, calls := trace ++ [p] }
      else
        match api trace.length with
        | Except.ok r => toolRounds g api tm system tools msgs2 r n (trace ++ [p])
        | Except.error e => { result := Except.error e, calls := trace ++ [p] }

/-- `_handle_tool_execution` (ai_generator.py lines 108-212): runs up to
`MAX_ROUNDS` sequential rounds starting from the messages of the base
parameters, with the initial call already in the trace. -/
def AIGenerator.handle_tool_execution (g : AIGenerator) (api : ModelApi)
    (initial : ModelResponse) (baseParams : ApiParams) (tm : ToolManager)
    (trace : List ApiParams) : Outcome :=
  toolRounds g api tm baseParams.system baseParams.tools baseParams.messages
    initial MAX_ROUNDS trace

/-- `generate_response` (ai_generator.py lines 58-106): returns the fixed
configuration-error text without any call when no client is configured;
otherwise issues the first call, hands off to `_handle_tool_execution` when
the stop reason is `tool_use` and a truthy tool manager was supplied, and
otherwise returns the first block text of the response. -/
def AIGenerator.generate_response (g : AIGenerator) (api : ModelApi)
    (query : String) (history : Option String) (tools : Option (List ToolDef))
    (tool_manager : Option ToolManager) : Outcome :=
  if g.hasClient = false then
    { result := Except.ok (some apiKeyErrorMsg), calls := [] }
  else
    let p := g.initialParams query history tools
    match api 0 with
    | Except.error e => { result := Except.error e, calls := [p] }
    | Except.ok r =>
      match tool_manager with
      | some tm =>
        if r.stop_reason = "tool_use" then
          g.handle_tool_execution api r p tm [p]
        else
          { result := firstText r, calls := [p] }
      | none => { result := firstText r, calls := [p] }

/-! ### Spec-modelled search capability and tool registry

The files `backend/search_tools.py`, `backend/vector_store.py` and
`backend/rag_system.py` are not among the provided sources; only their tests
are. The definitions below are therefore modelled from the spec (sections 2,
3, 4.1, 4.2, 4.4 and 8), cross-checked against the expectations of
`tests/test_search_tools.py` and `tests/test_rag_system.py`. -/

/-- A citation: display text plus optional deep link (spec section 3). -/
structure Citation where
  text : String
  link : Option String
deriving DecidableEq, Repr

/-- Metadata of one retrieved chunk: optional course title and optional
lesson number (spec section 4.2; `tests/test_search_tools.py` uses dicts with
keys `course_title` and `lesson_number`, either of which may be absent). -/
structure ChunkMeta where
  course_title : Option String
  lesson_number : Option Nat
deriving DecidableEq, Repr

/-- Modelled from the spec: the retrieval collaborator result
(`vector_store.py SearchResults` is not in src) - an ordered list of document
texts with parallel metadata, or an explicit error string (spec section 4.2
and 6). The floating-point distances are never consulted by the tool and are
omitted. -/
structure SearchResults where
  documents : List String
  metadata : List ChunkMeta
  error : Option String
deriving DecidableEq, Repr

/-- Modelled from the spec: the retrieval collaborator interface
(`vector_store.py VectorStore` is not in src): `search` with optional course
and lesson filters, and a secondary `get_lesson_link` lookup (spec section 6). -/
structure VectorStore where
  search : String → Option String → Option Nat → SearchResults
  get_lesson_link : String → Nat → Option String

/-- Modelled from the spec: `search_tools.py CourseSearchTool` is not in src.
The tool holds the store and its per-tool citation slot `last_sources`
(spec sections 3 and 4.2). -/
structure CourseSearchTool where
  store : VectorStore
  last_sources : List Citation

/-- Modelled from the spec: the zero-match message of
`CourseSearchTool.execute` - the literal `"No relevant content found"`,
suffixed with `" in course <quoted name>"` and/or `" in lesson <N>"` when
those filters were supplied, ending in a period (spec sections 4.2 and 8;
cf. `tests/test_search_tools.py` lines 68-130). -/
def noResultsMessage (course_name : Option String) (lesson_number : Option Nat) : String :=
  "No relevant content found"
    ++ (match course_name with
        | some c => " in course \x27" ++ c ++ "\x27"
        | none => "")
    ++ (match lesson_number with
        | some n => " in lesson " ++ toString n
        | none => "")
    ++ "."

/-- Modelled from the spec: one formatted result block - a header
`"[<course title or unknown> - Lesson <N>]"` when a lesson number is present
in the metadata, `"[<course title or unknown>]"` otherwise, followed by the
document text (spec section 4.2). -/
def formatBlock (m : ChunkMeta) (doc : String) : String :=
  let title := m.course_title.getD "unknown"
  match m.lesson_number with
  | some n => "[" ++ title ++ " - Lesson " ++ toString n ++ "]\n" ++ doc
  | none => "[" ++ title ++ "]\n" ++ doc

/-- Modelled from the spec: the citation recorded for one result - display
text `"<title> - Lesson <N>"` with the deep link from `get_lesson_link` when
a lesson number is present, plain title with no link otherwise (spec sections
3 and 4.2; cf. `tests/test_search_tools.py` line 329). -/
def citationOf (store : VectorStore) (m : ChunkMeta) : Citation :=
  let title := m.course_title.getD "unknown"
  match m.lesson_number with
  | some n => { text := title ++ " - Lesson " ++ toString n, link := store.get_lesson_link title n }
  | none => { text := title, link := none }

/-- Modelled from the spec: `CourseSearchTool.execute` (search_tools.py is
not in src). Delegates to the store; a collaborator-reported error is
returned verbatim; zero matches yield the filter-dependent literal message;
otherwise the result blocks are joined with blank-line separation. The
citation slot is rebuilt from scratch on every call - one citation per
result, never appended (spec section 4.2). -/
def CourseSearchTool.execute (t : CourseSearchTool) (query : String)
    (course_name : Option String) (lesson_number : Option Nat) :
    String × CourseSearchTool :=
  let results := t.store.search query course_name lesson_number
  match results.error with
  | some e => (e, { store := t.store, last_sources := [] })
  | none =>
    if results.documents.isEmpty then
      (noResultsMessage course_name lesson_number, { store := t.store, last_sources := [] })
    else
      let pairs := results.documents.zip results.metadata
      (String.intercalate "\n\n" (pairs.map fun p => formatBlock p.2 p.1),
       { store := t.store, last_sources := pairs.map fun p => citationOf t.store p.2 })

/-- Modelled from the spec: the tool registry (`search_tools.py ToolManager`
is not in src) - named tools in registration order, each with its citation
slot (spec section 4.1). -/
structure ToolRegistry where
  tools : List (String × CourseSearchTool)

/-- Modelled from the spec: `ToolManager.get_last_sources` - the most recent
citation lists of every registered tool, merged in registration order (spec
section 4.1). -/
def ToolRegistry.get_last_sources (r : ToolRegistry) : List Citation :=
  (r.tools.map (fun t => t.2.last_sources)).flatten

/-- Modelled from the spec: `ToolManager.reset_sources` - resets the citation
slot of every registered tool to empty (spec section 4.1). -/
def ToolRegistry.reset_sources (r : ToolRegistry) : ToolRegistry :=
  { tools := r.tools.map fun t => (t.1, { store := t.2.store, last_sources := [] }) }

/-- Modelled from the spec: `ToolManager.execute_tool` - an unknown tool name
yields a textual not-found result and leaves the registry unchanged;
otherwise the named tool runs and its updated state (with the overwritten
citation slot) replaces the old one (spec section 4.1). -/
def ToolRegistry.execute_tool (r : ToolRegistry) (name : String) (query : String)
    (course_name : Option String) (lesson_number : Option Nat) :
    String × ToolRegistry :=
  match r.tools.find? (fun t => t.1 = name) with
  | none => ("Tool \x27" ++ name ++ "\x27 not found", r)
  | some t =>
    let out := t.2.execute query course_name lesson_number
    (out.1, { tools := r.tools.map fun u => if u.1 = name then (u.1, out.2) else u })

/-- An observable registry operation of the query facade. -/
inductive RegistryOp where
  | read
  | reset
deriving DecidableEq, Repr

/-- Modelled from the spec: the citation lifecycle of `RAGSystem.query`
(rag_system.py is not in src). The facade wraps the query with the fixed
instruction text, obtains the answer, reads the citations once via
`get_last_sources`, then calls `reset_sources` exactly once - the only place
citations are read or cleared (spec section 4.4). The emitted `RegistryOp`
list records the order of registry operations. -/
def ragQuery (genAnswer : String → String) (reg : ToolRegistry) (query : String) :
    (String × List Citation) × ToolRegistry × List RegistryOp :=
  let answer := genAnswer ("Answer this question about course materials: " ++ query)
  ((answer, reg.get_last_sources), (reg.reset_sources, [RegistryOp.read, RegistryOp.reset]))

/-! ### Helper lemmas about the orchestration loop -/

theorem toolRounds_calls_le (g : AIGenerator) (api : ModelApi) (tm : ToolManager)
    (system : String) (tools : Option (List ToolDef)) :
    ∀ (n : Nat) (msgs : List ChatMessage) (cur : ModelResponse) (trace : List ApiParams),
      (toolRounds g api tm system tools msgs cur n trace).calls.length ≤ trace.length + n := by
  intro n
  induction n with
  | zero => intro msgs cur trace; simp [toolRounds]
  | succ n ih =>
    intro msgs cur trace
    simp only [toolRounds]
    split
    · simp
    · split
      · split
        · split <;> simp
        · simp
      · split
        · split <;> simp
        · split
          · exact le_trans (ih _ _ _) (by simp; omega)
          · simp

theorem toolRounds_extends (g : AIGenerator) (api : ModelApi) (tm : ToolManager)
    (system : String) (tools : Option (List ToolDef)) :
    ∀ (n : Nat) (msgs : List ChatMessage) (cur : ModelResponse) (trace : List ApiParams),
      ∃ rest, (toolRounds g api tm system tools msgs cur n trace).calls = trace ++ rest := by
  intro n
  induction n with
  | zero => intro msgs cur trace; exact ⟨[], by simp [toolRounds]⟩
  | succ n ih =>
    intro msgs cur trace
    simp only [toolRounds]
    split
    · exact ⟨[], by simp⟩
    · split
      · split
        · split <;> exact ⟨_, rfl⟩
        · exact ⟨_, rfl⟩
      · split
        · split <;> exact ⟨_, rfl⟩
        · split
          · obtain ⟨rest, hrest⟩ := ih _ _ _
            exact ⟨_, by rw [hrest, List.append_assoc]⟩
          · exact ⟨_, rfl⟩

theorem toolRounds_mem (g : AIGenerator) (api : ModelApi) (tm : ToolManager)
    (system : String) (tools : Option (List ToolDef)) :
    ∀ (n : Nat) (msgs : List ChatMessage) (cur : ModelResponse) (trace : List ApiParams)
      (p : ApiParams), p ∈ (toolRounds g api tm system tools msgs cur n trace).calls →
      p ∈ trace ∨ (p.tools = tools ∧ p.tool_choice = some "auto") := by
  intro n
  induction n with
  | zero => intro msgs cur trace p hp; simp only [toolRounds] at hp; exact Or.inl hp
  | succ n ih =>
    intro msgs cur trace p hp
    simp only [toolRounds] at hp
    split at hp
    · exact Or.inl hp
    · split at hp
      · split at hp
        · split at hp <;>
          · simp only [List.mem_append, List.mem_singleton] at hp
            rcases hp with hp | hp
            · exact Or.inl hp
            · exact Or.inr (by subst hp; exact ⟨rfl, rfl⟩)
        · simp only [List.mem_append, List.mem_singleton] at hp
          rcases hp with hp | hp
          · exact Or.inl hp
          · exact Or.inr (by subst hp; exact ⟨rfl, rfl⟩)
      · split at hp
        · split at hp <;>
          · simp only [List.mem_append, List.mem_singleton] at hp
            rcases hp with hp | hp
            · exact Or.inl hp
            · exact Or.inr (by subst hp; exact ⟨rfl, rfl⟩)
        · split at hp
          · rcases ih _ _ _ _ hp with hp' | hp'
            · simp only [List.mem_append, List.mem_singleton] at hp'
              rcases hp' with hp' | hp'
              · exact Or.inl hp'
              · exact Or.inr (by subst hp'; exact ⟨rfl, rfl⟩)
            · exact Or.inr hp'
          · simp only [List.mem_append, List.mem_singleton] at hp
            rcases hp with hp | hp
            · exact Or.inl hp
            · exact Or.inr (by subst hp; exact ⟨rfl, rfl⟩)

/-- The textual content recorded for one tool-use block: the result returned
by the manager, or the failure text when the manager raises. -/
def toolResultContent (tm : ToolManager) (b : ContentBlock) : String :=
  match tm b.name b.input with
  | Except.ok r => r
  | Except.error e => "Tool execution failed: " ++ e

theorem runToolBlocks_fst (tm : ToolManager) :
    ∀ blocks : List ContentBlock,
      (runToolBlocks tm blocks).1 =
        (blocks.filter (fun b => b.type = "tool_use")).map
          (fun b => { type := "tool_result", tool_use_id := b.id,
                      content := toolResultContent tm b }) := by
  intro blocks
  induction blocks with
  | nil => rfl
  | cons b bs ih =>
    by_cases hb : b.type = "tool_use"
    · cases htm : tm b.name b.input with
      | ok r => simp [runToolBlocks, hb, List.filter_cons, toolResultContent, htm, ih]
      | error e => simp [runToolBlocks, hb, List.filter_cons, toolResultContent, htm, ih]
    · simp [runToolBlocks, hb, List.filter_cons, ih]

theorem runToolBlocks_failed (tm : ToolManager) :
    ∀ (blocks : List ContentBlock) (b : ContentBlock) (e : String),
      b ∈ blocks → b.type = "tool_use" → tm b.name b.input = Except.error e →
      ({ type := "tool_result", tool_use_id := b.id,
         content := "Tool execution failed: " ++ e } : ToolResult) ∈ (runToolBlocks tm blocks).1 ∧
      (runToolBlocks tm blocks).2 = true := by
  intro blocks
  induction blocks with
  | nil => intro b e hb; simp at hb
  | cons c cs ih =>
    intro b e hb htype htm
    rcases List.mem_cons.mp hb with hb | hb
    · subst hb
      simp only [runToolBlocks, htype, if_pos rfl, htm]
      exact ⟨List.mem_cons_self _ _, rfl⟩
    · obtain ⟨hmem, hflag⟩ := ih b e hb htype htm
      simp only [runToolBlocks]
      by_cases hc : c.type = "tool_use"
      · simp only [hc, if_pos rfl]
        cases htc : tm c.name c.input <;>
          simp [hflag, List.mem_cons.mpr (Or.inr hmem)]
      · simp [hc, hmem, hflag]

theorem getElem?_append_cons {α : Type} (p : α) (l2 : List α) :
    ∀ l1 : List α, (l1 ++ p :: l2)[l1.length]? = some p := by
  intro l1
  induction l1 with
  | nil => simp
  | cons a l ih => simpa using ih

/-- Claim C1: for every call to `generate_response` with tools and a tool
manager supplied, and for every sequence of model responses the collaborator
may return (including one where every response has stop reason `tool_use`),
the orchestration loop terminates (it is a total function of the round
budget) and issues at most `MAX_ROUNDS + 1 = 3` model calls in total. -/
theorem claim_c1_round_budget (g : AIGenerator) (api : ModelApi) (query : String)
    (history : Option String) (ts : List ToolDef) (tm : ToolManager) :
    (g.generate_response api query history (some ts) (some tm)).calls.length ≤ MAX_ROUNDS + 1 ∧
      MAX_ROUNDS + 1 = 3 := by
  refine ⟨?_, rfl⟩
  unfold AIGenerator.generate_response
  split
  · simp
  · cases h0 : api 0 with
    | error e => simp
    | ok r =>
      simp only []
      split
      · unfold AIGenerator.handle_tool_execution
        have := toolRounds_calls_le g api tm
          (g.initialParams query history (some ts)).system
          (g.initialParams query history (some ts)).tools
          MAX_ROUNDS (g.initialParams query history (some ts)).messages r
          [g.initialParams query history (some ts)]
        simpa using this
      · simp

theorem initialParams_tools_of_ne (g : AIGenerator) (query : String)
    (history : Option String) (ts : List ToolDef) (hts : ts ≠ []) :
    (g.initialParams query history (some ts)).tools = some ts ∧
      (g.initialParams query history (some ts)).tool_choice = some "auto" := by
  simp [AIGenerator.initialParams, listTruthy, hts]

/-- Claim C2: for every call to `generate_response` in which (non-empty)
tools are supplied, every issued model call - the initial call and every
follow-up call of the loop, including the forced last-round call and the
failure-path call - carries the same tool definitions and the automatic
tool-choice policy in its parameters; tools are never dropped on a follow-up
call. -/
theorem claim_c2_tools_in_every_call (g : AIGenerator) (api : ModelApi)
    (query : String) (history : Option String) (ts : List ToolDef)
    (tmo : Option ToolManager) (hts : ts ≠ []) (p : ApiParams)
    (hp : p ∈ (g.generate_response api query history (some ts) tmo).calls) :
    p.tools = some ts ∧ p.tool_choice = some "auto" := by
  obtain ⟨htools, hchoice⟩ := initialParams_tools_of_ne g query history ts hts
  unfold AIGenerator.generate_response at hp
  split at hp
  · simp at hp
  · cases h0 : api 0 with
    | error e =>
      rw [h0] at hp
      simp only [List.mem_singleton] at hp
      subst hp
      exact ⟨htools, hchoice⟩
    | ok r =>
      rw [h0] at hp
      cases tmo with
      | none =>
        simp only [List.mem_singleton] at hp
        subst hp
        exact ⟨htools, hchoice⟩
      | some tm =>
        simp only [] at hp
        split at hp
        · unfold AIGenerator.handle_tool_execution at hp
          rcases toolRounds_mem g api tm _ _ _ _ _ _ p hp with hmem | hmem
          · simp only [List.mem_singleton] at hmem
            subst hmem
            exact ⟨htools, hchoice⟩
          · rw [htools] at hmem
            exact hmem
        · simp only [List.mem_singleton] at hp
          subst hp
          exact ⟨htools, hchoice⟩

/-! ### Concrete fixtures for witnesses and counterexamples -/

/-- A generator with a configured client. -/
def genW : AIGenerator := { model := "claude-sonnet-4-20250514", hasClient := true }

/-- A generator whose client was never initialized (invalid API key). -/
def genNoClient : AIGenerator := { model := "claude-sonnet-4-20250514", hasClient := false }

/-- A tool-use content block (no text payload), as in the test mocks. -/
def toolUseBlock (i : String) : ContentBlock :=
  { type := "tool_use", text := none, name := "search_tool",
    input := [("query", "test")], id := i }

/-- A plain text content block. -/
def textBlock (s : String) : ContentBlock :=
  { type := "text", text := some s, name := "", input := [], id := "" }

/-- A response requesting one tool use. -/
def respToolUse1 : ModelResponse := { stop_reason := "tool_use", content := [toolUseBlock "tool_1"] }

/-- A second response requesting one tool use. -/
def respToolUse2 : ModelResponse := { stop_reason := "tool_use", content := [toolUseBlock "tool_2"] }

/-- A terminal text response. -/
def respFinal : ModelResponse := { stop_reason := "end_turn", content := [textBlock "Final response"] }

/-- A terminal response whose text is the empty string. -/
def respEmptyText : ModelResponse := { stop_reason := "end_turn", content := [textBlock ""] }

/-- A collaborator that keeps requesting tools and then answers. -/
def apiKeepTools : ModelApi := fun n =>
  if n = 0 then Except.ok respToolUse1
  else if n = 1 then Except.ok respToolUse2
  else Except.ok respFinal

/-- A collaborator whose first response requests a tool and whose second
response carries an empty text. -/
def apiThenEmpty : ModelApi := fun n =>
  if n = 0 then Except.ok respToolUse1 else Except.ok respEmptyText

/-- A collaborator whose first response requests a tool and whose second call
raises (network failure). -/
def apiThenRaise : ModelApi := fun n =>
  if n = 0 then Except.ok respToolUse1 else Except.error "Connection error"

/-- A tool manager that always returns a result. -/
def tmOk : ToolManager := fun _ _ => Except.ok "Tool result"

/-- A tool manager that always raises. -/
def tmRaise : ToolManager := fun _ _ => Except.error "Tool failed"

theorem mem_of_getElem_eq {α : Type} :
    ∀ (l : List α) (i : Nat) (a : α), l[i]? = some a → a ∈ l := by
  intro l
  induction l with
  | nil => intro i a h; simp at h
  | cons b bs ih =>
    intro i a h
    cases i with
    | zero =>
      simp only [List.getElem?_cons_zero, Option.some.injEq] at h
      exact h ▸ List.mem_cons_self _ _
    | succ j => exact List.mem_cons_of_mem _ (ih j a (by simpa using h))

theorem claim_c2_tools_in_every_call_witness :
    (["search_tool"] : List ToolDef) ≠ [] ∧
      (genW.initialParams "q" none (some ["search_tool"])) ∈
        (genW.generate_response apiKeepTools "q" none (some ["search_tool"]) (some tmOk)).calls ∧
      (genW.initialParams "q" none (some ["search_tool"])).tools = some ["search_tool"] ∧
      (genW.initialParams "q" none (some ["search_tool"])).tool_choice = some "auto" := by
  have hmem : (genW.initialParams "q" none (some ["search_tool"])) ∈
      (genW.generate_response apiKeepTools "q" none (some ["search_tool"]) (some tmOk)).calls :=
    mem_of_getElem_eq _ 0 _ rfl
  exact ⟨by decide, hmem,
    claim_c2_tools_in_every_call genW apiKeepTools "q" none ["search_tool"] (some tmOk)
      (by decide) _ hmem⟩

/-- Claim C8: for every call to `generate_response` on a generator with no
configured client, the function returns the fixed configuration-error text
asking for a valid ANTHROPIC_API_KEY, makes no model call, and the result is
an ordinary `Except.ok` text value of the same type as a normal answer. -/
theorem claim_c8_no_client (g : AIGenerator) (api : ModelApi) (query : String)
    (history : Option String) (tools : Option (List ToolDef)) (tmo : Option ToolManager)
    (hc : g.hasClient = false) :
    g.generate_response api query history tools tmo =
      { result := Except.ok (some apiKeyErrorMsg), calls := [] } := by
  unfold AIGenerator.generate_response
  simp [hc]

theorem claim_c8_no_client_witness :
    genNoClient.hasClient = false ∧
      genNoClient.generate_response apiKeepTools "q" none none none =
        { result := Except.ok (some apiKeyErrorMsg), calls := [] } :=
  ⟨rfl, claim_c8_no_client genNoClient apiKeepTools "q" none none none rfl⟩

/-- Counterexample to claim C9 as stated: `generate_response` with no tools
supplied (`tools = None`) but a tool manager present enters the tool loop as
soon as the first response has stop reason `tool_use` (the loop entry at
ai_generator.py line 102 checks only the stop reason and the tool manager),
so three model calls are issued, not exactly one. -/
theorem claim_c9_counterexample :
    (genW.generate_response apiKeepTools "q" none none (some tmOk)).calls.length = 3 := by
  decide

/-- Claim C9, amended: for every call to `generate_response` with no tools
supplied and a configured client, if additionally no tool manager is supplied
or the first response does not have stop reason `tool_use` (which the real
collaborator never produces without offered tools), then exactly one model
call is made and the text of the first content block of its response is
returned verbatim, with no tool invocation. -/
theorem claim_c9_no_tools_amended (g : AIGenerator) (api : ModelApi) (query : String)
    (history : Option String) (tmo : Option ToolManager) (r : ModelResponse)
    (hc : g.hasClient = true) (h0 : api 0 = Except.ok r)
    (hnt : tmo = none ∨ r.stop_reason ≠ "tool_use") :
    g.generate_response api query history none tmo =
      { result := firstText r, calls := [g.initialParams query history none] } := by
  unfold AIGenerator.generate_response
  rcases hnt with hnt | hnt
  · subst hnt
    simp [hc, h0]
  · cases tmo with
    | none => simp [hc, h0]
    | some tm => simp [hc, h0, hnt]

/-- A collaborator that always returns the terminal text response. -/
def apiFinalOnly : ModelApi := fun _ => Except.ok respFinal

theorem claim_c9_no_tools_amended_witness :
    genW.hasClient = true ∧ apiFinalOnly 0 = Except.ok respFinal ∧
      respFinal.stop_reason ≠ "tool_use" ∧
      genW.generate_response apiFinalOnly "q" none none (some tmOk) =
        { result := Except.ok (some "Final response"),
          calls := [genW.initialParams "q" none none] } :=
  ⟨rfl, rfl, by decide,
    claim_c9_no_tools_amended genW apiFinalOnly "q" none (some tmOk) respFinal rfl rfl
      (Or.inr (by decide))⟩

/-- Claim C10: for every call to `generate_response` where tools are supplied
but no tool manager is, a first response with stop reason `tool_use` causes
no tool invocation and no further model call: the function returns the
`.text` attribute of the first content block (which for a tool-use block
carries no text payload, i.e. is `none`), silently discarding the tool
request rather than executing it or reporting an error. -/
theorem claim_c10_tool_request_discarded (g : AIGenerator) (api : ModelApi)
    (query : String) (history : Option String) (tools : Option (List ToolDef))
    (r : ModelResponse) (b : ContentBlock) (bs : List ContentBlock)
    (hc : g.hasClient = true) (h0 : api 0 = Except.ok r)
    (_hstop : r.stop_reason = "tool_use") (hcontent : r.content = b :: bs) :
    g.generate_response api query history tools none =
      { result := Except.ok b.text, calls := [g.initialParams query history tools] } := by
  unfold AIGenerator.generate_response
  simp [hc, h0, firstText, hcontent]

theorem claim_c10_tool_request_discarded_witness :
    genW.hasClient = true ∧ apiKeepTools 0 = Except.ok respToolUse1 ∧
      respToolUse1.stop_reason = "tool_use" ∧
      respToolUse1.content = toolUseBlock "tool_1" :: [] ∧
      (toolUseBlock "tool_1").text = none ∧
      genW.generate_response apiKeepTools "q" none (some ["search_tool"]) none =
        { result := Except.ok none,
          calls := [genW.initialParams "q" none (some ["search_tool"])] } :=
  ⟨rfl, rfl, rfl, rfl, rfl,
    claim_c10_tool_request_discarded genW apiKeepTools "q" none (some ["search_tool"])
      respToolUse1 (toolUseBlock "tool_1") [] rfl rfl rfl rfl⟩

/-- Characterization of a round whose tool execution failed: exactly one more
model call is issued (the round loop is not continued), and the result is the
text of that recovery response, or the fixed fallback text when the recovery
call raises or returns an empty content list. -/
theorem toolRounds_failed_round (g : AIGenerator) (api : ModelApi) (tm : ToolManager)
    (system : String) (tools : Option (List ToolDef)) (msgs : List ChatMessage)
    (cur : ModelResponse) (n : Nat) (trace : List ApiParams)
    (hstop : cur.stop_reason = "tool_use")
    (hflag : (runToolBlocks tm cur.content).2 = true) :
    (toolRounds g api tm system tools msgs cur (n + 1) trace).calls.length = trace.length + 1 ∧
      (∀ e, api trace.length = Except.error e →
        (toolRounds g api tm system tools msgs cur (n + 1) trace).result =
          Except.ok (some toolFailureFallback)) ∧
      (∀ r b bs, api trace.length = Except.ok r → r.content = b :: bs →
        (toolRounds g api tm system tools msgs cur (n + 1) trace).result = Except.ok b.text) := by
  refine ⟨?_, ?_, ?_⟩
  · simp only [toolRounds, hstop, hflag]
    simp only [ne_eq, not_true_eq_false, if_false, if_true]
    cases h : api trace.length with
    | ok r => cases hc : r.content <;> simp [hc]
    | error e => simp
  · intro e he
    simp only [toolRounds, hstop, hflag]
    simp only [ne_eq, not_true_eq_false, if_false, if_true, he]
  · intro r b bs hr hc
    simp only [toolRounds, hstop, hflag]
    simp only [ne_eq, not_true_eq_false, if_false, if_true, hr, hc]

/-- Characterization of a round with no tool failure whose next model call
raises: the exception propagates uncaught (both on the forced last round and
on an intermediate round). -/
theorem toolRounds_clean_round_error (g : AIGenerator) (api : ModelApi) (tm : ToolManager)
    (system : String) (tools : Option (List ToolDef)) (msgs : List ChatMessage)
    (cur : ModelResponse) (n : Nat) (trace : List ApiParams) (e : String)
    (hstop : cur.stop_reason = "tool_use")
    (hflag : (runToolBlocks tm cur.content).2 = false)
    (herr : api trace.length = Except.error e) :
    (toolRounds g api tm system tools msgs cur (n + 1) trace).result = Except.error e := by
  simp only [toolRounds, hstop, hflag]
  simp only [ne_eq, not_true_eq_false, if_false, Bool.false_eq_true, if_true]
  split <;> simp [herr]

/-- Counterexample to claim C3 as stated: with a raising tool and a recovery
response whose only content block carries the empty text, the failed round
issues exactly one more model call and the loop does not abort, yet the final
answer text is the empty string - not a non-empty answer. -/
theorem claim_c3_counterexample :
    (runToolBlocks tmRaise respToolUse1.content).2 = true ∧
      (genW.generate_response apiThenEmpty "q" none (some ["search_tool"]) (some tmRaise)).calls.length = 2 ∧
      (genW.generate_response apiThenEmpty "q" none (some ["search_tool"]) (some tmRaise)).result =
        Except.ok (some "") := by
  refine ⟨?_, ?_, ?_⟩ <;> decide

/-- Claim C3, amended: for every round of the orchestration loop, if invoking
a tool through the registry raises an exception, the exception is caught and
replaced by a textual tool result whose content is exactly
`"Tool execution failed: "` followed by the exception message; the tool
invocation never aborts the loop; after a round containing a failed
invocation the loop issues exactly one more model call (it does not continue
the round loop) and returns the first-block text of that call as the final answer
- the fixed non-empty fallback text when that call raises, but possibly
empty (or absent) text when the model returns an empty text, which is the
only deviation from the claim as stated. -/
theorem claim_c3_tool_failure_amended (g : AIGenerator) (api : ModelApi)
    (tm : ToolManager) (system : String) (tools : Option (List ToolDef))
    (msgs : List ChatMessage) (cur : ModelResponse) (n : Nat) (trace : List ApiParams)
    (b : ContentBlock) (e : String)
    (hstop : cur.stop_reason = "tool_use") (hb : b ∈ cur.content)
    (htype : b.type = "tool_use") (htm : tm b.name b.input = Except.error e) :
    ({ type := "tool_result", tool_use_id := b.id,
       content := "Tool execution failed: " ++ e } : ToolResult) ∈ (runToolBlocks tm cur.content).1 ∧
      (toolRounds g api tm system tools msgs cur (n + 1) trace).calls.length = trace.length + 1 ∧
      (∀ e2, api trace.length = Except.error e2 →
        (toolRounds g api tm system tools msgs cur (n + 1) trace).result =
          Except.ok (some toolFailureFallback)) ∧
      (∀ r b2 bs2, api trace.length = Except.ok r → r.content = b2 :: bs2 →
        (toolRounds g api tm system tools msgs cur (n + 1) trace).result = Except.ok b2.text) := by
  obtain ⟨hmem, hflag⟩ := runToolBlocks_failed tm cur.content b e hb htype htm
  obtain ⟨hlen, herr, hok⟩ :=
    toolRounds_failed_round g api tm system tools msgs cur n trace hstop hflag
  exact ⟨hmem, hlen, herr, hok⟩

/-- The initial call parameters of the witness scenarios. -/
def p0fix : ApiParams := genW.initialParams "q" none (some ["search_tool"])

theorem claim_c3_tool_failure_amended_witness :
    respToolUse1.stop_reason = "tool_use" ∧
      toolUseBlock "tool_1" ∈ respToolUse1.content ∧
      (toolUseBlock "tool_1").type = "tool_use" ∧
      tmRaise (toolUseBlock "tool_1").name (toolUseBlock "tool_1").input =
        Except.error "Tool failed" ∧
      ({ type := "tool_result", tool_use_id := "tool_1",
         content := "Tool execution failed: Tool failed" } : ToolResult) ∈
        (runToolBlocks tmRaise respToolUse1.content).1 ∧
      (toolRounds genW apiThenEmpty tmRaise "s" none [] respToolUse1 (1 + 1) [p0fix]).calls.length =
        [p0fix].length + 1 :=
  have h := claim_c3_tool_failure_amended genW apiThenEmpty tmRaise "s" none []
    respToolUse1 1 [p0fix] (toolUseBlock "tool_1") "Tool failed" rfl
    (List.mem_cons_self _ _) rfl rfl
  ⟨rfl, List.mem_cons_self _ _, rfl, rfl, h.1, h.2.1⟩

/-- Counterexample to claim C4 as stated: when the recovery model call after
a failed tool round itself raises, the failure IS caught (ai_generator.py
lines 178-183) and the fixed fallback answer text is substituted - the
exception does not propagate to the caller. -/
theorem claim_c4_counterexample :
    apiThenRaise 1 = Except.error "Connection error" ∧
      (genW.generate_response apiThenRaise "q" none (some ["search_tool"]) (some tmRaise)).calls.length = 2 ∧
      (genW.generate_response apiThenRaise "q" none (some ["search_tool"]) (some tmRaise)).result =
        Except.ok (some toolFailureFallback) := by
  refine ⟨?_, ?_, ?_⟩ <;> decide

/-- Claim C4, amended: a failure of the model-collaborator call propagates to
the caller as a hard error, uncaught, with no retry and no fallback text, for
the initial call and for every follow-up call of a round with no failed tool
invocation (intermediate or forced-last); the single exception is the
recovery call issued after a round containing a failed tool invocation, where
the failure is caught and the fixed fallback answer text is substituted. -/
theorem claim_c4_transport_failure_amended :
    (∀ (g : AIGenerator) (api : ModelApi) (query : String) (history : Option String)
        (tools : Option (List ToolDef)) (tmo : Option ToolManager) (e : String),
        g.hasClient = true → api 0 = Except.error e →
        g.generate_response api query history tools tmo =
          { result := Except.error e, calls := [g.initialParams query history tools] }) ∧
      (∀ (g : AIGenerator) (api : ModelApi) (tm : ToolManager) (system : String)
          (tools : Option (List ToolDef)) (msgs : List ChatMessage) (cur : ModelResponse)
          (n : Nat) (trace : List ApiParams) (e : String),
          cur.stop_reason = "tool_use" → (runToolBlocks tm cur.content).2 = false →
          api trace.length = Except.error e →
          (toolRounds g api tm system tools msgs cur (n + 1) trace).result = Except.error e) ∧
      (∀ (g : AIGenerator) (api : ModelApi) (tm : ToolManager) (system : String)
          (tools : Option (List ToolDef)) (msgs : List ChatMessage) (cur : ModelResponse)
          (n : Nat) (trace : List ApiParams) (e : String),
          cur.stop_reason = "tool_use" → (runToolBlocks tm cur.content).2 = true →
          api trace.length = Except.error e →
          (toolRounds g api tm system tools msgs cur (n + 1) trace).result =
            Except.ok (some toolFailureFallback)) := by
  refine ⟨?_, ?_, ?_⟩
  · intro g api query history tools tmo e hc h0
    unfold AIGenerator.generate_response
    simp [hc, h0]
  · intro g api tm system tools msgs cur n trace e hstop hflag herr
    exact toolRounds_clean_round_error g api tm system tools msgs cur n trace e hstop hflag herr
  · intro g api tm system tools msgs cur n trace e hstop hflag herr
    exact (toolRounds_failed_round g api tm system tools msgs cur n trace hstop hflag).2.1 e herr

/-- A collaborator that always raises. -/
def apiRaiseAll : ModelApi := fun _ => Except.error "boom"

theorem claim_c4_transport_failure_amended_witness :
    (genW.hasClient = true ∧ apiRaiseAll 0 = Except.error "boom" ∧
        genW.generate_response apiRaiseAll "q" none none none =
          { result := Except.error "boom", calls := [genW.initialParams "q" none none] }) ∧
      ((runToolBlocks tmOk respToolUse1.content).2 = false ∧
        (toolRounds genW apiRaiseAll tmOk "s" none [] respToolUse1 (0 + 1) []).result =
          Except.error "boom") ∧
      ((runToolBlocks tmRaise respToolUse1.content).2 = true ∧
        (toolRounds genW apiRaiseAll tmRaise "s" none [] respToolUse1 (0 + 1) []).result =
          Except.ok (some toolFailureFallback)) :=
  ⟨⟨rfl, rfl,
      claim_c4_transport_failure_amended.1 genW apiRaiseAll "q" none none none "boom" rfl rfl⟩,
    ⟨by decide,
      claim_c4_transport_failure_amended.2.1 genW apiRaiseAll tmOk "s" none [] respToolUse1
        0 [] "boom" rfl (by decide) rfl⟩,
    ⟨by decide,
      claim_c4_transport_failure_amended.2.2 genW apiRaiseAll tmRaise "s" none [] respToolUse1
        0 [] "boom" rfl (by decide) rfl⟩⟩

/-- One step of the loop on a round with a non-empty tool result list: the
next issued call (at position `trace.length` of the final trace) carries
exactly the previous messages, the assistant tool-use message, and the single
bundled user message of tool results. -/
theorem toolRounds_succ_calls_head (g : AIGenerator) (api : ModelApi) (tm : ToolManager)
    (system : String) (tools : Option (List ToolDef)) (msgs : List ChatMessage)
    (cur : ModelResponse) (n : Nat) (trace : List ApiParams)
    (hstop : cur.stop_reason = "tool_use")
    (hne : (runToolBlocks tm cur.content).1.isEmpty = false) :
    (toolRounds g api tm system tools msgs cur (n + 1) trace).calls[trace.length]? =
      some (AIGenerator.followupParams g system tools
        ((msgs ++ [{ role := "assistant", content := MessageContent.blocks cur.content }]) ++
          [{ role := "user",
             content := MessageContent.results (runToolBlocks tm cur.content).1 }])) := by
  simp only [toolRounds, hstop, hne]
  simp only [ne_eq, not_true_eq_false, if_false, Bool.false_eq_true]
  split
  · cases h : api trace.length with
    | ok r =>
      cases hc : r.content with
      | nil => simp [hc, getElem?_append_cons]
      | cons b bs => simp [hc, getElem?_append_cons]
    | error e => simp [getElem?_append_cons]
  · split
    · cases h : api trace.length with
      | ok r => simp [getElem?_append_cons]
      | error e => simp [getElem?_append_cons]
    · cases h : api trace.length with
      | ok r =>
        simp only []
        obtain ⟨rest, hrest⟩ := toolRounds_extends g api tm system tools n _ r _
        rw [hrest, List.append_assoc, List.singleton_append, getElem?_append_cons]
      | error e => simp [getElem?_append_cons]

/-- Claim C5: within any single round of the orchestration loop, every
tool-use block of the model response is executed via the registry - one
result per tool-use block, in the order of the blocks, each carrying the
call identifier of its request as `tool_use_id` - and all of their results are
appended to the message list as exactly one user-role message (the next
issued model call carries the previous messages, the assistant tool-use
message, and that single bundled user message, and nothing else). -/
theorem claim_c5_round_bundling (g : AIGenerator) (api : ModelApi) (tm : ToolManager)
    (system : String) (tools : Option (List ToolDef)) (msgs : List ChatMessage)
    (cur : ModelResponse) (n : Nat) (trace : List ApiParams)
    (hstop : cur.stop_reason = "tool_use")
    (hne : (runToolBlocks tm cur.content).1 ≠ []) :
    (runToolBlocks tm cur.content).1 =
      (cur.content.filter (fun b => b.type = "tool_use")).map
        (fun b => { type := "tool_result", tool_use_id := b.id,
                    content := toolResultContent tm b }) ∧
      (toolRounds g api tm system tools msgs cur (n + 1) trace).calls[trace.length]? =
        some (AIGenerator.followupParams g system tools
          (msgs ++ [{ role := "assistant", content := MessageContent.blocks cur.content },
                    { role := "user",
                      content := MessageContent.results (runToolBlocks tm cur.content).1 }])) := by
  refine ⟨runToolBlocks_fst tm cur.content, ?_⟩
  have hne' : (runToolBlocks tm cur.content).1.isEmpty = false := by
    cases hcase : (runToolBlocks tm cur.content).1 with
    | nil => exact absurd hcase hne
    | cons a l => rfl
  have h := toolRounds_succ_calls_head g api tm system tools msgs cur n trace hstop hne'
  rw [List.append_assoc] at h
  simpa using h

theorem claim_c5_round_bundling_witness :
    respToolUse1.stop_reason = "tool_use" ∧
      (runToolBlocks tmOk respToolUse1.content).1 ≠ [] ∧
      ((runToolBlocks tmOk respToolUse1.content).1 =
        (respToolUse1.content.filter (fun b => b.type = "tool_use")).map
          (fun b => { type := "tool_result", tool_use_id := b.id,
                      content := toolResultContent tmOk b }) ∧
        (toolRounds genW apiKeepTools tmOk "s" none [] respToolUse1 (0 + 1) [p0fix]).calls[[p0fix].length]? =
          some (AIGenerator.followupParams genW "s" none
            ([] ++ [{ role := "assistant", content := MessageContent.blocks respToolUse1.content },
                    { role := "user",
                      content := MessageContent.results (runToolBlocks tmOk respToolUse1.content).1 }]))) :=
  ⟨rfl, by decide,
    claim_c5_round_bundling genW apiKeepTools tmOk "s" none [] respToolUse1 0 [p0fix]
      rfl (by decide)⟩

/-- Claim C6 (spec-modelled): for every `CourseSearchTool.execute` call whose
retrieval collaborator returns zero matches and no error, the returned string
is exactly one of four literals determined by which filters were supplied -
no filter, course only, lesson only, or both. -/
theorem claim_c6_no_results_messages (t : CourseSearchTool) (q : String)
    (h : ∀ (cn : Option String) (ln : Option Nat),
      t.store.search q cn ln = { documents := [], metadata := [], error := none }) :
    (t.execute q none none).1 = "No relevant content found." ∧
      (t.execute q (some "X") none).1 = "No relevant content found in course \x27X\x27." ∧
      (t.execute q none (some 5)).1 = "No relevant content found in lesson 5." ∧
      (t.execute q (some "X") (some 5)).1 =
        "No relevant content found in course \x27X\x27 in lesson 5." := by
  refine ⟨?_, ?_, ?_, ?_⟩ <;>
    · simp only [CourseSearchTool.execute, h]
      rfl

/-- A retrieval store that always reports zero matches and no error. -/
def storeEmpty : VectorStore :=
  { search := fun _ _ _ => { documents := [], metadata := [], error := none },
    get_lesson_link := fun _ _ => none }

/-- The search tool over the empty store. -/
def toolEmpty : CourseSearchTool := { store := storeEmpty, last_sources := [] }

theorem claim_c6_no_results_messages_witness :
    (toolEmpty.execute "query" none none).1 = "No relevant content found." ∧
      (toolEmpty.execute "query" (some "X") none).1 =
        "No relevant content found in course \x27X\x27." ∧
      (toolEmpty.execute "query" none (some 5)).1 =
        "No relevant content found in lesson 5." ∧
      (toolEmpty.execute "query" (some "X") (some 5)).1 =
        "No relevant content found in course \x27X\x27 in lesson 5." :=
  claim_c6_no_results_messages toolEmpty "query" (fun _ _ => rfl)

/-- Claim C7 (spec-modelled): immediately after `reset_sources`,
`get_last_sources` returns the empty list; the outcome of a
`CourseSearchTool.execute` call does not depend on the prior content of the
citation slot (overwrite, never append, so no carry-over between calls), and
after a call with no collaborator error the slot holds exactly one citation
per result of that most recent call; and the query facade reads the citations
once, from the pre-reset registry, and then resets them exactly once per
completed query. -/
theorem claim_c7_citation_lifecycle :
    (∀ r : ToolRegistry, r.reset_sources.get_last_sources = []) ∧
      (∀ (st : VectorStore) (q : String) (cn : Option String) (ln : Option Nat)
          (prior1 prior2 : List Citation),
          (CourseSearchTool.mk st prior1).execute q cn ln =
            (CourseSearchTool.mk st prior2).execute q cn ln) ∧
      (∀ (st : VectorStore) (q : String) (cn : Option String) (ln : Option Nat)
          (prior : List Citation),
          (st.search q cn ln).error = none →
          (st.search q cn ln).metadata.length = (st.search q cn ln).documents.length →
          ((CourseSearchTool.mk st prior).execute q cn ln).2.last_sources.length =
            (st.search q cn ln).documents.length) ∧
      (∀ (genAnswer : String → String) (reg : ToolRegistry) (q : String),
          ragQuery genAnswer reg q =
            ((genAnswer ("Answer this question about course materials: " ++ q),
                reg.get_last_sources),
              reg.reset_sources, [RegistryOp.read, RegistryOp.reset])) := by
  refine ⟨?_, ?_, ?_, ?_⟩
  · intro r
    have : ∀ l : List (String × CourseSearchTool),
        (((l.map (fun t => (t.1, CourseSearchTool.mk t.2.store []))).map
          (fun t => t.2.last_sources)).flatten = ([] : List Citation)) := by
      intro l
      induction l with
      | nil => rfl
      | cons a l ih => simp [ih]
    have h := this r.tools
    simp only [ToolRegistry.reset_sources, ToolRegistry.get_last_sources]
    exact h
  · intro st q cn ln prior1 prior2
    cases herr : (st.search q cn ln).error <;>
      simp [CourseSearchTool.execute, herr]
  · intro st q cn ln prior herr hlen
    simp only [CourseSearchTool.execute, herr]
    by_cases hd : (st.search q cn ln).documents.isEmpty
    · simp [hd, List.isEmpty_iff.mp hd]
    · simp [hd, List.length_zip, hlen]
  · intro genAnswer reg q
    rfl

/-- A retrieval store that always returns two matches. -/
def storeTwo : VectorStore :=
  { search := fun _ _ _ =>
      { documents := ["Course content about Python programming", "Advanced Python concepts"],
        metadata := [{ course_title := some "Python Basics", lesson_number := some 1 },
                     { course_title := some "Python Basics", lesson_number := some 2 }],
        error := none },
    get_lesson_link := fun _ _ => some "http://example.com/lesson1" }

theorem claim_c7_citation_lifecycle_witness :
    (storeTwo.search "Python programming" none none).error = none ∧
      (storeTwo.search "Python programming" none none).metadata.length =
        (storeTwo.search "Python programming" none none).documents.length ∧
      ((CourseSearchTool.mk storeTwo
          [{ text := "stale citation", link := none }]).execute "Python programming" none none).2.last_sources.length =
        (storeTwo.search "Python programming" none none).documents.length ∧
      (ToolRegistry.mk [("search_course_content", toolEmpty)]).reset_sources.get_last_sources = [] :=
  ⟨rfl, rfl,
    claim_c7_citation_lifecycle.2.2.1 storeTwo "Python programming" none none
      [{ text := "stale citation", link := none }] rfl rfl,
    claim_c7_citation_lifecycle.1 (ToolRegistry.mk [("search_course_content", toolEmpty)])⟩
